import Mathlib

/-!
Verification of the rule-based maternal prediction engine
(`utils/PredictionEngine.js`, served through the `/ongoing-progression`
route of `aiserver.js`).

Shallow embedding conventions:
* JS numbers are modelled as exact rationals (`ℚ`); the claims under
  study concern thresholds, counts and probability sums where binary
  floating point artefacts are immaterial.
* A JS value that may be `null`/`undefined`/absent is an `Option`.
* `Math.random()` draws are modelled as an indexed stream
  `rand : ℕ → ℚ` passed explicitly; `Math.sin` is passed as an explicit
  function parameter `sinq`.  No claim depends on the jittered values.
* A JS runtime exception is an `Except.error`; code that cannot throw is
  a total function.
* The `generatedAt` timestamps (`new Date().toISOString()`) are the one
  field excluded from the model; the claims exclude them as well.
-/

/- Batteries seals the `Rat` field operations against unfolding; the
concrete evaluations below need the kernel to compute with them. -/
attribute [local semireducible] Rat.add Rat.mul Rat.inv Rat.sub Rat.ofScientific

/-- JS `Math.round x`: rounds half toward positive infinity,
which is exactly `⌊x + 1/2⌋`. -/
def jsRound (x : ℚ) : ℤ := ⌊x + 1 / 2⌋

/-- Model of `roundProbability` (PredictionEngine line 370): `Math.round(value * 100) / 100`. -/
def roundProbability (x : ℚ) : ℚ := (jsRound (x * 100) : ℚ) / 100

/-- Model of `roundValue` (PredictionEngine line 374): `Number(value.toFixed(decimals))`,
modelled as decimal rounding. -/
def roundValue (x : ℚ) (decimals : ℕ) : ℚ :=
  (jsRound (x * 10 ^ decimals) : ℚ) / 10 ^ decimals

/-- Whitespace for the purposes of `Number(string)` coercion. -/
def isJsWs (c : Char) : Bool := c = ' ' || c = '\t' || c = '\n' || c = '\r'

/-- Strip leading and trailing whitespace from a character list. -/
def trimWs (l : List Char) : List Char :=
  ((l.dropWhile isJsWs).reverse.dropWhile isJsWs).reverse

/-- Numeric value of a list of decimal digit characters. -/
def natOfDigits (l : List Char) : ℕ :=
  l.foldl (fun a c => a * 10 + (c.toNat - 48)) 0

/-- Parse an unsigned decimal literal (`"12"`, `"12.5"`, `".5"`, `"5."`);
`none` models NaN. -/
def parseUnsigned (cs : List Char) : Option ℚ :=
  let intPart := cs.takeWhile (·.isDigit)
  let rest := cs.dropWhile (·.isDigit)
  match rest with
  | [] => if intPart.isEmpty then none else some (natOfDigits intPart)
  | '.' :: frac =>
    if frac.all (·.isDigit) then
      if intPart.isEmpty && frac.isEmpty then none
      else some ((natOfDigits intPart : ℚ) + (natOfDigits frac : ℚ) / 10 ^ frac.length)
    else none
  | _ => none

/-- JS `Number(string)` on a character list: trimmed empty input is `0`,
an optional sign followed by a decimal literal is its value, anything
else is NaN (`none`).  Exponent, hexadecimal and `Infinity` forms do not
occur in this codebase and are outside the modelled grammar. -/
def jsNumberChars (cs : List Char) : Option ℚ :=
  match trimWs cs with
  | [] => some 0
  | '+' :: r => parseUnsigned r
  | '-' :: r => (parseUnsigned r).map (fun q => -q)
  | t => parseUnsigned t

/-- JS `Number(s)` for a string. -/
def jsNumber (s : String) : Option ℚ := jsNumberChars s.toList

/-- Model of `String.prototype.split(c)` on a character list. -/
def splitOnChar (c : Char) : List Char → List (List Char)
  | [] => [[]]
  | x :: xs =>
    let r := splitOnChar c xs
    if x = c then [] :: r
    else
      match r with
      | y :: ys => (x :: y) :: ys
      | [] => [[x]]

/-- Does `l` start with `pat`? -/
def leadsWith : List Char → List Char → Bool
  | [], _ => true
  | _ :: _, [] => false
  | p :: ps, x :: xs => p = x && leadsWith ps xs

/-- Model of `String.prototype.includes` on character lists. -/
def hasSub (pat : List Char) : List Char → Bool
  | [] => pat.isEmpty
  | x :: xs => leadsWith pat (x :: xs) || hasSub pat xs

/-- The JS `PARITY` field may arrive as a number, a string, or be absent. -/
inductive JSParity where
  | num (q : ℚ)
  | str (s : String)
  | undef
deriving DecidableEq, Repr

/-- A raw visit record as received by the engine constructor
(PredictionEngine lines 13–23 name exactly these eight fields). -/
structure RawVisit where
  GESTATIONAL_AGE_WEEKS : Option ℚ := none
  MATERNAL_WEIGHT : Option ℚ := none
  FUNDAL_HEIGHT : Option ℚ := none
  HEMOGLOBIN_LEVEL : Option ℚ := none
  BLOOD_PRESSURE : Option String := none
  FETAL_HEART_RATE : Option ℚ := none
  COMPLICATIONS : Option String := none
  VISIT_DATE : Option String := none
deriving DecidableEq, Repr

/-- A normalized visit: the gestational age survived the
`visit.GESTATIONAL_AGE_WEEKS && visit.GESTATIONAL_AGE_WEEKS > 0` filter,
all other fields keep their `|| null` coercion. -/
structure Visit where
  GESTATIONAL_AGE_WEEKS : ℚ
  MATERNAL_WEIGHT : Option ℚ := none
  FUNDAL_HEIGHT : Option ℚ := none
  HEMOGLOBIN_LEVEL : Option ℚ := none
  BLOOD_PRESSURE : Option String := none
  FETAL_HEART_RATE : Option ℚ := none
  COMPLICATIONS : Option String := none
  VISIT_DATE : Option String := none
deriving DecidableEq, Repr

/-- The patient profile fields read by the engine. -/
structure Patient where
  AGE : Option ℚ := none
  BMI_VALUE : Option ℚ := none
  PARITY : JSParity := .undef
  MEDICAL_HISTORY : Option String := none
deriving DecidableEq, Repr

/-- Coercion `field || null`: a zero number is falsy in JS and is nulled out. -/
def jsNumField (x : Option ℚ) : Option ℚ :=
  match x with
  | some v => if v = 0 then none else some v
  | none => none

/-- Coercion `field || null` for strings: the empty string is falsy. -/
def jsStrField (x : Option String) : Option String :=
  match x with
  | some s => if s = "" then none else some s
  | none => none

/-- Model of `validateVisits` (PredictionEngine lines 10–25): project the eight
fields with falsy-to-null coercion, then keep only records whose
gestational age is truthy and positive.  `map` followed by `filter`
preserves the original relative order; no sort is applied. -/
def validateVisits (visits : List RawVisit) : List Visit :=
  visits.filterMap (fun v =>
    match jsNumField v.GESTATIONAL_AGE_WEEKS with
    | some g =>
      if 0 < g then
        some { GESTATIONAL_AGE_WEEKS := g
               MATERNAL_WEIGHT := jsNumField v.MATERNAL_WEIGHT
               FUNDAL_HEIGHT := jsNumField v.FUNDAL_HEIGHT
               HEMOGLOBIN_LEVEL := jsNumField v.HEMOGLOBIN_LEVEL
               BLOOD_PRESSURE := jsStrField v.BLOOD_PRESSURE
               FETAL_HEART_RATE := jsNumField v.FETAL_HEART_RATE
               COMPLICATIONS := jsStrField v.COMPLICATIONS
               VISIT_DATE := jsStrField v.VISIT_DATE }
      else none
    | none => none)

/-- Parsed blood pressure. -/
structure BloodPressure where
  systolic : ℚ
  diastolic : ℚ
deriving DecidableEq, Repr

/-- One split component of a blood-pressure string, as used by
`parts[i] || default`: an out-of-range index (`undefined`), a NaN
(`none` inner value) and a zero are all falsy and fall to the default. -/
def bpComponent (d : ℚ) : Option (Option ℚ) → ℚ
  | some (some v) => if v = 0 then d else v
  | some none => d
  | none => d

/-- Model of `parseBloodPressure` (PredictionEngine lines 324–335): an absent or
empty (falsy) string short-circuits to 115/70; otherwise the string is
split on `/`, each part coerced with `Number`, and each falsy part
(NaN, 0, or missing) individually replaced by its default.  The
`try/catch` in the source is dead for string inputs: `split` cannot
throw on a string. -/
def parseBloodPressure (bpString : Option String) : BloodPressure :=
  match bpString with
  | none => ⟨115, 70⟩
  | some s =>
    if s = "" then ⟨115, 70⟩
    else
      let parts := (splitOnChar '/' s.toList).map jsNumberChars
      ⟨bpComponent 115 parts[0]?, bpComponent 70 parts[1]?⟩

/-- JS `PARITY > 0`: a string parity is numerically coerced
(NaN comparisons are false), `undefined > 0` is false. -/
def parityGtZero : JSParity → Bool
  | .num q => decide (0 < q)
  | .str s =>
    match jsNumber s with
    | some v => decide (0 < v)
    | none => false
  | .undef => false

/-- Strict comparison `PARITY === '1'`. -/
def parityIsStrOne : JSParity → Bool
  | .str s => s = "1"
  | _ => false

/-- Strict comparisons `PARITY === 0 || PARITY === '0'` (no coercion). -/
def parityIsZero : JSParity → Bool
  | .num q => q = 0
  | .str s => s = "0"
  | .undef => false

/-- Model of `hasPretermHistory` (PredictionEngine lines 337–340):
`(PARITY > 0 || PARITY === '1') && MEDICAL_HISTORY?.toLowerCase().includes('preterm')`. -/
def hasPretermHistory (p : Patient) : Bool :=
  (parityGtZero p.PARITY || parityIsStrOne p.PARITY) &&
    (match p.MEDICAL_HISTORY with
     | some s => hasSub "preterm".toList (s.toList.map Char.toLower)
     | none => false)

/-- The six named sub-scores (PredictionEngine lines 63–70). -/
structure RiskScores where
  anemia : ℚ
  hypertension : ℚ
  growthRestriction : ℚ
  pretermRisk : ℚ
  maternalAgeRisk : ℚ
  bmiRisk : ℚ
deriving DecidableEq, Repr

/-- Anemia rule (lines 73–77); the normalized field is `none` exactly
when `HEMOGLOBIN_LEVEL` was falsy, so `some` matches the truthy guard. -/
def anemiaScore : Option ℚ → ℚ
  | some hb => if hb < 10 then 0.8 else if hb < 11 then 0.4 else 0.1
  | none => 0

/-- Hypertension rule (lines 80–85). -/
def hypertensionScore (bps : Option String) : ℚ :=
  match bps with
  | none => 0
  | some s =>
    let bp := parseBloodPressure (some s)
    if bp.systolic ≥ 140 ∨ bp.diastolic ≥ 90 then 0.9
    else if bp.systolic ≥ 130 ∨ bp.diastolic ≥ 85 then 0.6
    else 0.1

/-- Growth-restriction rule (lines 88–93); the gestational age of a
normalized visit is always truthy but the source still tests it. -/
def growthScore (fundal : Option ℚ) (ga : ℚ) : ℚ :=
  match fundal with
  | some f =>
    if ga ≠ 0 then
      if |f - ga| > 4 then 0.7 else if |f - ga| > 2 then 0.3 else 0.1
    else 0
  | none => 0

/-- Preterm rule (lines 96–99); always assigned. -/
def pretermScore (ga : ℚ) (history : Bool) : ℚ :=
  if ga < 37 ∧ history = true then 0.6
  else if ga < 32 then 0.3
  else 0.1

/-- Maternal-age rule (lines 102–104); `AGE || 25` also defaults a zero age. -/
def maternalAgeScore (age : Option ℚ) : ℚ :=
  let a : ℚ := match age with
    | some v => if v = 0 then 25 else v
    | none => 25
  if a < 18 ∨ a > 35 then 0.4 else 0.1

/-- BMI rule (lines 107–112); guarded by truthiness of `BMI_VALUE`. -/
def bmiScore : Option ℚ → ℚ
  | some b =>
    if b ≠ 0 then
      if b < 18.5 ∨ b > 30 then 0.5 else if b > 25 then 0.3 else 0.1
    else 0
  | none => 0

/-- The body of `calculateRiskScores` (lines 61–115) applied to the
visit the source selects (`validatedVisits[validatedVisits.length - 1]`). -/
def riskScoresOf (latest : Visit) (p : Patient) : RiskScores :=
  { anemia := anemiaScore latest.HEMOGLOBIN_LEVEL
    hypertension := hypertensionScore latest.BLOOD_PRESSURE
    growthRestriction := growthScore latest.FUNDAL_HEIGHT latest.GESTATIONAL_AGE_WEEKS
    pretermRisk := pretermScore latest.GESTATIONAL_AGE_WEEKS (hasPretermHistory p)
    maternalAgeRisk := maternalAgeScore p.AGE
    bmiRisk := bmiScore p.BMI_VALUE }

/-- Model of `calculateRiskScores` (lines 61–115): the source reads
`this.validatedVisits[this.validatedVisits.length - 1]`, the LAST visit
in input order (not the maximum-gestational-age visit); on an empty
list the JS property accesses would fault, modelled by `none`. -/
def calculateRiskScores (visits : List RawVisit) (p : Patient) : Option RiskScores :=
  (validateVisits visits).getLast?.map (fun latest => riskScoresOf latest p)

/-- Delivery-type distribution. -/
structure DeliveryType where
  Matured : ℚ
  Premature : ℚ
  MortalityRisk : ℚ
deriving DecidableEq, Repr

/-- Delivery-mode distribution. -/
structure DeliveryMode where
  Normal : ℚ
  CSection : ℚ
deriving DecidableEq, Repr

/-- Model of `calculateDeliveryTypeProbabilities` (lines 117–134): mean of the
six sub-scores, three clamped raw weights, exact normalization, then
independent 2-decimal rounding. -/
def calculateDeliveryTypeProbabilities (s : RiskScores) : DeliveryType :=
  let totalRisk := (s.anemia + s.hypertension + s.growthRestriction +
    s.pretermRisk + s.maternalAgeRisk + s.bmiRisk) / 6
  let Matured := max 0.4 (0.80 - totalRisk * 0.3)
  let premature := min 0.4 (0.15 + totalRisk * 0.2)
  let mortalityRisk := min 0.2 (0.05 + totalRisk * 0.1)
  let sum := Matured + premature + mortalityRisk
  { Matured := roundProbability (Matured / sum)
    Premature := roundProbability (premature / sum)
    MortalityRisk := roundProbability (mortalityRisk / sum) }

/-- Model of `calculateDeliveryModeProbabilities` (lines 136–148). -/
def calculateDeliveryModeProbabilities (s : RiskScores) (p : Patient) : DeliveryMode :=
  let cSectionRisk := min 0.7
    (s.hypertension * 0.4 + s.growthRestriction * 0.3 + s.bmiRisk * 0.2 +
      (if parityIsZero p.PARITY then 0.1 else 0))
  { Normal := roundProbability (1 - cSectionRisk)
    CSection := roundProbability cSectionRisk }

/-- Model of `Math.max(...validatedVisits.map(v => v.GESTATIONAL_AGE_WEEKS))`.
The engine only evaluates this on a nonempty list (the empty case is
intercepted at line 28 of the source); the `[]` value is immaterial. -/
def currentGAof : List Visit → ℚ
  | [] => 0
  | v :: rest => rest.foldl (fun a u => max a u.GESTATIONAL_AGE_WEEKS) v.GESTATIONAL_AGE_WEEKS

/-- The value `weeksToProject = Math.min(40 - currentGA, 12)` (line 33), the value
reported as `weeksProjected` in the metadata. -/
def weeksToProjectOf (validated : List Visit) : ℚ :=
  min (40 - currentGAof validated) 12

/-- Stable ascending insertion by gestational age, modelling the JS
`sort((a, b) => a.GESTATIONAL_AGE_WEEKS - b.GESTATIONAL_AGE_WEEKS)`. -/
def sortInsertGA (v : Visit) : List Visit → List Visit
  | [] => [v]
  | y :: ys =>
    if y.GESTATIONAL_AGE_WEEKS < v.GESTATIONAL_AGE_WEEKS then y :: sortInsertGA v ys
    else v :: y :: ys

/-- Model of `[...this.validatedVisits].sort(...)` on gestational age. -/
def sortByGA (l : List Visit) : List Visit := l.foldr sortInsertGA []

/-- Model of `calculateTrend` (lines 311–322): fewer than two visits give 0; a
falsy endpoint value (absent, hence also an original 0) gives 0; a zero
week span gives 0; otherwise the per-week slope. -/
def calculateTrend (validated : List Visit) (field : Visit → Option ℚ) : ℚ :=
  if validated.length < 2 then 0
  else
    match sortByGA validated with
    | [] => 0
    | s0 :: rest =>
      let slast := (s0 :: rest).getLast (List.cons_ne_nil s0 rest)
      match field s0, field slast with
      | some f, some l =>
        if f = 0 ∨ l = 0 then 0
        else
          let weekDiff := slast.GESTATIONAL_AGE_WEEKS - s0.GESTATIONAL_AGE_WEEKS
          if weekDiff > 0 then (l - f) / weekDiff else 0
      | _, _ => 0

/-- Model of `calculateWeightGain` (lines 297–302); `weeksFromStart` is measured
from the first normalized visit. -/
def calculateWeightGain (week baseWeight trend firstGA : ℚ) : ℚ :=
  let baseGain : ℚ := 0.3
  let patientSpecificGain := baseGain + trend * 0.1
  let weeksFromStart := week - firstGA
  baseWeight + weeksFromStart * patientSpecificGain

/-- Model of `calculateHbDecline` (lines 304–309), floored at 9.5. -/
def calculateHbDecline (week baseHb trend firstGA : ℚ) : ℚ :=
  let baseDecline : ℚ := 0.05
  let patientSpecificDecline := baseDecline + trend * 0.02
  let weeksFromStart := week - firstGA
  max 9.5 (baseHb - weeksFromStart * patientSpecificDecline)

/-- One progression point; `value` is an `Option` because the source
pushes the nonexistent `base.systolic` and `base.diastolic` properties
(JS `undefined`) as the values of the first systolic and diastolic
points.  `isActual` is only present (`true`) on the six initial pushes. -/
structure Point where
  week : ℚ
  value : Option ℚ
  isActual : Bool := false
deriving DecidableEq, Repr

/-- The six named signal sequences. -/
structure Progression where
  weight : List Point
  fundal : List Point
  hb : List Point
  systolic : List Point
  diastolic : List Point
  fetal_hr : List Point
deriving DecidableEq, Repr

/-- Iteration count of `for (let i = 0; i < weeksToProject; i++)` where
the loop bound is the locally recomputed
`weeksToProject = Math.max(0, 40 - currentGA + 1)` (line 157) — the
`weeksToProjectInput` argument is ignored by the source. -/
def progressionLoopCount (currentGA : ℚ) : ℕ :=
  (Int.ceil (max 0 (40 - currentGA + 1))).toNat

/-- The body of `generateProgression` (lines 152–295) given the selected
`first` (`validatedVisits[0]`) and `latest` (`validatedVisits.at(-1)`)
visits.  Each sequence receives one initial push flagged `isActual`,
then one push per loop iteration; the `i = 0` iteration re-pushes the
current week.  Successive `Math.random()` draws are the stream values
`rand (4*i)`, `rand (4*i+1)`, `rand (4*i+2)`, `rand (4*i+3)` of
iteration `i`. -/
def progressionOf (first latest : Visit) (validated : List Visit) (currentGA : ℚ)
    (weeksToProjectInput : ℚ) (rand : ℕ → ℚ) (sinq : ℚ → ℚ) : Progression :=
  let bp := parseBloodPressure latest.BLOOD_PRESSURE
  let count := progressionLoopCount currentGA
  let baseWeight := latest.MATERNAL_WEIGHT.getD 60
  let baseFundal := latest.FUNDAL_HEIGHT.getD currentGA
  let baseHb := latest.HEMOGLOBIN_LEVEL.getD 11.5
  let baseFhr := latest.FETAL_HEART_RATE.getD 145
  let weightTrend := calculateTrend validated (fun v => v.MATERNAL_WEIGHT)
  let hbTrend := calculateTrend validated (fun v => v.HEMOGLOBIN_LEVEL)
  let firstGA := first.GESTATIONAL_AGE_WEEKS
  { weight := ⟨currentGA, some baseWeight, true⟩ ::
      (List.range count).map (fun (i : ℕ) =>
        if i = 0 then ⟨currentGA, some baseWeight, false⟩
        else ⟨currentGA + i,
          some (roundValue (calculateWeightGain (currentGA + i) baseWeight weightTrend firstGA) 1),
          false⟩)
    fundal := ⟨currentGA, some baseFundal, true⟩ ::
      (List.range count).map (fun (i : ℕ) =>
        if i = 0 then ⟨currentGA, some baseFundal, false⟩
        else ⟨currentGA + i,
          some (roundValue ((currentGA + i) + (rand (4 * i) * 2 - 1)) 1), false⟩)
    hb := ⟨currentGA, some baseHb, true⟩ ::
      (List.range count).map (fun (i : ℕ) =>
        if i = 0 then ⟨currentGA, some baseHb, false⟩
        else ⟨currentGA + i,
          some (roundValue (calculateHbDecline (currentGA + i) baseHb hbTrend firstGA) 1),
          false⟩)
    systolic := ⟨currentGA, none, true⟩ ::
      (List.range count).map (fun (i : ℕ) =>
        if i = 0 then ⟨currentGA, some bp.systolic, false⟩
        else ⟨currentGA + i,
          some ((jsRound (bp.systolic + i * 0.25 + (rand (4 * i + 1) * 2 - 1)) : ℚ)), false⟩)
    diastolic := ⟨currentGA, none, true⟩ ::
      (List.range count).map (fun (i : ℕ) =>
        if i = 0 then ⟨currentGA, some bp.diastolic, false⟩
        else ⟨currentGA + i,
          some ((jsRound (bp.diastolic + i * 0.15 + (rand (4 * i + 2) * 2 - 1)) : ℚ)), false⟩)
    fetal_hr := ⟨currentGA, some baseFhr, true⟩ ::
      (List.range count).map (fun (i : ℕ) =>
        if i = 0 then ⟨currentGA, some baseFhr, false⟩
        else ⟨currentGA + i,
          some ((jsRound (min 160 (max 120
            (baseFhr + sinq ((i : ℚ) / 3) * 2 + (rand (4 * i + 3) * 3 - 1.5)))) : ℚ)),
          false⟩) }

/-- Model of `generateProgression` as a standalone method: on an empty visit list
`visits.at(-1)` is `undefined` and the subsequent field access faults
(`none`); the engine never reaches this with an empty list. -/
def generateProgression (validated : List Visit) (currentGA weeksToProjectInput : ℚ)
    (rand : ℕ → ℚ) (sinq : ℚ → ℚ) : Option Progression :=
  match validated with
  | [] => none
  | v :: rest =>
    some (progressionOf v ((v :: rest).getLast (List.cons_ne_nil v rest)) (v :: rest)
      currentGA weeksToProjectInput rand sinq)

/-- Model of `Object.entries(riskScores).reduce((a, b) => a[1] > b[1] ? a : b)`
(line 343): fold over the fixed insertion order, keeping the
accumulator only when strictly greater. -/
def primaryRiskPair (s : RiskScores) : String × ℚ :=
  [("hypertension", s.hypertension), ("growthRestriction", s.growthRestriction),
   ("pretermRisk", s.pretermRisk), ("maternalAgeRisk", s.maternalAgeRisk),
   ("bmiRisk", s.bmiRisk)].foldl (fun a b => if a.2 > b.2 then a else b)
    ("anemia", s.anemia)

/-- Severity bucket of line 344:
`riskScores[primaryRisk] > 0.7 ? 'high' : ... > 0.4 ? 'moderate' : 'low'`. -/
def summaryRiskLevel (s : RiskScores) : String :=
  if (primaryRiskPair s).2 > 0.7 then "high"
  else if (primaryRiskPair s).2 > 0.4 then "moderate"
  else "low"

/-- Model of `generateSummary` (lines 342–356).  Line 347 of the source reads
`const prematurePercent = Math.round(deliveryType.Premature * 100);s` —
after the semicolon the bare undeclared identifier `s` is evaluated as
an expression statement, which raises a `ReferenceError` on every call,
before any summary string is built. -/
def generateSummary (riskScores : RiskScores) (deliveryType : DeliveryType)
    (deliveryMode : DeliveryMode) : Except String String :=
  let riskLevel := summaryRiskLevel riskScores
  let MATUREDPercent := jsRound (deliveryType.Matured * 100)
  Except.error "ReferenceError: s is not defined"

/-- Metadata of a prediction; the fallback object carries only the
source tag.  `generatedAt` is excluded from the model. -/
structure Metadata where
  currentGestationalAge : Option ℚ := none
  weeksProjected : Option ℚ := none
  visitCount : Option ℕ := none
  riskScores : Option RiskScores := none
  source : String
deriving DecidableEq, Repr

/-- The prediction result object.  The non-fallback object of the
source has no `isFallback` key, which reads back as falsy. -/
structure Prediction where
  deliveryType : DeliveryType
  deliveryMode : DeliveryMode
  progression : Progression
  summary : String
  isFallback : Bool := false
  metadata : Option Metadata := none
deriving DecidableEq, Repr

/-- Model of `getFallbackPrediction` (PredictionEngine lines 378–397). -/
def fallbackPrediction : Prediction :=
  { deliveryType := { Matured := 0.80, Premature := 0.15, MortalityRisk := 0.05 }
    deliveryMode := { Normal := 0.70, CSection := 0.30 }
    progression := ⟨[], [], [], [], [], []⟩
    summary := "Using standard pregnancy progression model - insufficient patient data for personalized prediction."
    isFallback := true
    metadata := some { source := "fallback-model" } }

/-- Model of `generatePrediction` (PredictionEngine lines 27–59): fallback on an
empty normalized list or a non-positive `weeksToProject`; otherwise the
full pipeline, whose `generateSummary` call raises. -/
def generatePrediction (visits : List RawVisit) (p : Patient)
    (rand : ℕ → ℚ) (sinq : ℚ → ℚ) : Except String Prediction :=
  match validateVisits visits with
  | [] => .ok fallbackPrediction
  | v :: rest =>
    let validated := v :: rest
    let currentGA := currentGAof validated
    let weeksToProject := weeksToProjectOf validated
    if weeksToProject ≤ 0 then .ok fallbackPrediction
    else
      let latest := validated.getLast (List.cons_ne_nil v rest)
      let riskScores := riskScoresOf latest p
      let deliveryType := calculateDeliveryTypeProbabilities riskScores
      let deliveryMode := calculateDeliveryModeProbabilities riskScores p
      let progression := progressionOf v latest validated currentGA weeksToProject rand sinq
      match generateSummary riskScores deliveryType deliveryMode with
      | .error e => .error e
      | .ok summary =>
        .ok { deliveryType := deliveryType
              deliveryMode := deliveryMode
              progression := progression
              summary := summary
              isFallback := false
              metadata := some { currentGestationalAge := some currentGA
                                 weeksProjected := some weeksToProject
                                 visitCount := some validated.length
                                 riskScores := some riskScores
                                 source := "rule-based-engine" } }

/-- Model of `getFallbackPrediction` of the `aiserver.js` duplicate engine
(lines 266–274): different constants, no metadata. -/
def aiGetFallbackPrediction : Prediction :=
  { deliveryType := { Matured := 0.75, Premature := 0.2, MortalityRisk := 0.05 }
    deliveryMode := { Normal := 0.65, CSection := 0.35 }
    progression := ⟨[], [], [], [], [], []⟩
    summary := "Standard pregnancy progression model applied."
    isFallback := true
    metadata := none }

/-- The HTTP response of the `/ongoing-progression` route, minus
transport details: a success flag, the spread prediction fields, and
the diagnostic `error` field attached only in the catch branch. -/
structure RouteResponse where
  success : Bool
  prediction : Prediction
  error : Option String
deriving DecidableEq, Repr

/-- The `try`/`catch` boundary of `router.post("/ongoing-progression")`
(aiserver lines 134–151): a thrown error is caught and translated into
`{ success: true, ...getFallbackPrediction(), error: error.message }`. -/
def ongoingProgressionBoundary (result : Except String Prediction) : RouteResponse :=
  match result with
  | .ok p => { success := true, prediction := p, error := none }
  | .error e => { success := true, prediction := aiGetFallbackPrediction, error := some e }

/-- A deterministic stand-in for the `Math.random()` stream, used only
to instantiate theorems at concrete inputs. -/
def rngHalf : ℕ → ℚ := fun _ => 1 / 2

/-- A stand-in for `Math.sin`, used only at concrete inputs. -/
def sinZero : ℚ → ℚ := fun _ => 0

/-- A raw visit carrying only a gestational age. -/
def gaOnlyRaw (g : ℚ) : RawVisit := { GESTATIONAL_AGE_WEEKS := some g }

/-- The normalized form of `gaOnlyRaw`. -/
def gaOnlyVisit (g : ℚ) : Visit := { GESTATIONAL_AGE_WEEKS := g }

/-- A raw visit with a gestational age and a hemoglobin level. -/
def gaHbRaw (g hb : ℚ) : RawVisit :=
  { GESTATIONAL_AGE_WEEKS := some g, HEMOGLOBIN_LEVEL := some hb }

/-- The single visit of the worked example of the specification
(visits with GA 28, Hb 9.2, BP 148/95, fundal height 33, weight 68). -/
def exampleRawVisit : RawVisit :=
  { GESTATIONAL_AGE_WEEKS := some 28, MATERNAL_WEIGHT := some 68,
    FUNDAL_HEIGHT := some 33, HEMOGLOBIN_LEVEL := some 9.2,
    BLOOD_PRESSURE := some "148/95" }

/-- The normalized form of `exampleRawVisit`. -/
def exampleVisit : Visit :=
  { GESTATIONAL_AGE_WEEKS := 28, MATERNAL_WEIGHT := some 68,
    FUNDAL_HEIGHT := some 33, HEMOGLOBIN_LEVEL := some 9.2,
    BLOOD_PRESSURE := some "148/95" }

/-- The patient of the worked example: age 17, BMI 32, parity 0. -/
def examplePatient : Patient :=
  { AGE := some 17, BMI_VALUE := some 32, PARITY := .num 0 }

/-- Boolean check that a normalized visit list is ascending in
gestational age (the precondition under which the last element is also
the maximum-gestational-age element). -/
def sortedByGA : List Visit → Bool
  | [] => true
  | [_] => true
  | a :: b :: t =>
    decide (a.GESTATIONAL_AGE_WEEKS ≤ b.GESTATIONAL_AGE_WEEKS) && sortedByGA (b :: t)

/-! ### Helper lemmas -/

theorem anemiaScore_mem (hb : Option ℚ) : 0 ≤ anemiaScore hb ∧ anemiaScore hb ≤ 1 := by
  cases hb with
  | none => simp [anemiaScore]
  | some v => simp only [anemiaScore]; split_ifs <;> norm_num

theorem hypertensionScore_mem (b : Option String) :
    0 ≤ hypertensionScore b ∧ hypertensionScore b ≤ 1 := by
  cases b with
  | none => simp [hypertensionScore]
  | some s => simp only [hypertensionScore]; split_ifs <;> norm_num

theorem growthScore_mem (f : Option ℚ) (g : ℚ) :
    0 ≤ growthScore f g ∧ growthScore f g ≤ 1 := by
  cases f with
  | none => simp [growthScore]
  | some v => simp only [growthScore]; split_ifs <;> norm_num

theorem pretermScore_mem (g : ℚ) (h : Bool) :
    0 ≤ pretermScore g h ∧ pretermScore g h ≤ 1 := by
  simp only [pretermScore]; split_ifs <;> norm_num

theorem maternalAgeScore_mem (a : Option ℚ) :
    0 ≤ maternalAgeScore a ∧ maternalAgeScore a ≤ 1 := by
  cases a with
  | none => simp only [maternalAgeScore]; split_ifs <;> norm_num
  | some v => simp only [maternalAgeScore]; split_ifs <;> norm_num

theorem bmiScore_mem (b : Option ℚ) : 0 ≤ bmiScore b ∧ bmiScore b ≤ 1 := by
  cases b with
  | none => simp [bmiScore]
  | some v => simp only [bmiScore]; split_ifs <;> norm_num

theorem roundProbability_close (x : ℚ) : |roundProbability x - x| ≤ 1 / 200 := by
  have h1 : (⌊x * 100 + 1 / 2⌋ : ℚ) ≤ x * 100 + 1 / 2 := Int.floor_le _
  have h2 : x * 100 + 1 / 2 < (⌊x * 100 + 1 / 2⌋ : ℚ) + 1 := Int.lt_floor_add_one _
  rw [roundProbability, jsRound, abs_le]
  constructor <;> linarith

/-! ### Claims -/

/-- C1: whenever the normalizer yields no valid visit, or the computed
`weeksToProject` is non-positive, `generatePrediction` returns exactly
the static fallback structure — delivery type 0.80/0.15/0.05, delivery
mode 0.70/0.30, six empty progression sequences, the fixed advisory
summary string and `isFallback: true` (timestamps excluded from the
model). -/
theorem C1_fallback_exact (visits : List RawVisit) (p : Patient)
    (rand : ℕ → ℚ) (sinq : ℚ → ℚ)
    (h : validateVisits visits = [] ∨ weeksToProjectOf (validateVisits visits) ≤ 0) :
    generatePrediction visits p rand sinq = Except.ok
      { deliveryType := { Matured := 0.80, Premature := 0.15, MortalityRisk := 0.05 }
        deliveryMode := { Normal := 0.70, CSection := 0.30 }
        progression := ⟨[], [], [], [], [], []⟩
        summary := "Using standard pregnancy progression model - insufficient patient data for personalized prediction."
        isFallback := true
        metadata := some { source := "fallback-model" } } := by
  have hfb : (Except.ok fallbackPrediction : Except String Prediction) = Except.ok
      { deliveryType := { Matured := 0.80, Premature := 0.15, MortalityRisk := 0.05 }
        deliveryMode := { Normal := 0.70, CSection := 0.30 }
        progression := ⟨[], [], [], [], [], []⟩
        summary := "Using standard pregnancy progression model - insufficient patient data for personalized prediction."
        isFallback := true
        metadata := some { source := "fallback-model" } } := rfl
  rw [← hfb]
  cases hv : validateVisits visits with
  | nil => simp [generatePrediction, hv]
  | cons v rest =>
    rcases h with h | h
    · rw [hv] at h; exact absurd h (List.cons_ne_nil v rest)
    · rw [hv] at h
      simp [generatePrediction, hv, if_pos h]

/-- Witness for C1 at the empty visit list. -/
theorem C1_fallback_exact_witness :
    generatePrediction [] examplePatient rngHalf sinZero = Except.ok
      { deliveryType := { Matured := 0.80, Premature := 0.15, MortalityRisk := 0.05 }
        deliveryMode := { Normal := 0.70, CSection := 0.30 }
        progression := ⟨[], [], [], [], [], []⟩
        summary := "Using standard pregnancy progression model - insufficient patient data for personalized prediction."
        isFallback := true
        metadata := some { source := "fallback-model" } } :=
  C1_fallback_exact [] examplePatient rngHalf sinZero (Or.inl rfl)

/-- C2: the route boundary never propagates an exception — for every
raw visit list, patient and jitter stream, the response is produced
with `success: true` and is either the whole prediction of the engine
run or the whole fallback object with the caught error message attached
as the diagnostic `error` field. -/
theorem C2_boundary_whole_or_fallback (visits : List RawVisit) (p : Patient)
    (rand : ℕ → ℚ) (sinq : ℚ → ℚ) :
    (ongoingProgressionBoundary (generatePrediction visits p rand sinq)).success = true ∧
    ((∃ pr, generatePrediction visits p rand sinq = Except.ok pr ∧
        (ongoingProgressionBoundary (generatePrediction visits p rand sinq)).prediction = pr ∧
        (ongoingProgressionBoundary (generatePrediction visits p rand sinq)).error = none) ∨
      ((ongoingProgressionBoundary (generatePrediction visits p rand sinq)).prediction =
          aiGetFallbackPrediction ∧
        ∃ e, (ongoingProgressionBoundary (generatePrediction visits p rand sinq)).error =
          some e)) := by
  cases hr : generatePrediction visits p rand sinq with
  | ok pr =>
    refine ⟨rfl, Or.inl ⟨pr, rfl, rfl, rfl⟩⟩
  | error e =>
    refine ⟨rfl, Or.inr ⟨rfl, e, rfl⟩⟩

theorem map_week_cons_range (ga : ℚ) (count : ℕ) (x0 : Option ℚ) (f : ℕ → Point)
    (hf : ∀ i, (f i).week = ga + i) :
    (((⟨ga, x0, true⟩ : Point) :: (List.range count).map f).map Point.week) =
      ga :: (List.range count).map (fun i : ℕ => ga + i) := by
  simp only [List.map_cons, List.map_map]
  congr 1
  exact List.map_congr_left (fun i _ => hf i)

theorem progressionLoopCount_eq (n : ℕ) (hn : n ≤ 39) :
    progressionLoopCount (n : ℚ) = 41 - n := by
  unfold progressionLoopCount
  have h1 : (40 : ℚ) - n + 1 = ((41 - n : ℕ) : ℚ) := by
    push_cast [Nat.cast_sub (by omega : n ≤ 41)]
    ring
  rw [h1, max_eq_right (by positivity), Int.ceil_natCast]
  exact Int.toNat_natCast _

theorem weekList_facts (n : ℕ) (hn : n ≤ 39) (L : List Point)
    (hL : L.map Point.week =
      (n : ℚ) :: (List.range (41 - n)).map (fun i : ℕ => (n : ℚ) + i)) :
    List.Chain' (· ≤ ·) (L.map Point.week) ∧
    (L.map Point.week).head? = some (n : ℚ) ∧
    ∀ w ∈ L.map Point.week, (n : ℚ) ≤ w ∧ w ≤ 40 := by
  rw [hL]
  refine ⟨?_, rfl, ?_⟩
  · rw [List.chain'_iff_pairwise]
    refine List.Pairwise.cons ?_ ?_
    · intro b hb
      simp only [List.mem_map, List.mem_range] at hb
      obtain ⟨i, _, rfl⟩ := hb
      have h0 : (0 : ℚ) ≤ i := by positivity
      linarith
    · rw [List.pairwise_map]
      refine (List.pairwise_lt_range _).imp ?_
      intro a b hab
      have : (a : ℚ) ≤ b := by exact_mod_cast hab.le
      linarith
  · intro w hw
    have hn40 : (n : ℚ) ≤ 39 := by exact_mod_cast hn
    simp only [List.mem_cons, List.mem_map, List.mem_range] at hw
    rcases hw with rfl | ⟨i, hi, rfl⟩
    · exact ⟨le_refl _, by linarith⟩
    · have hi' : i ≤ 40 - n := by omega
      have h1 : (i : ℚ) ≤ ((40 - n : ℕ) : ℚ) := by exact_mod_cast hi'
      have h2 : ((40 - n : ℕ) : ℚ) = 40 - n := by
        push_cast [Nat.cast_sub (by omega : n ≤ 40)]; ring
      have h0 : (0 : ℚ) ≤ i := by positivity
      constructor
      · linarith
      · rw [h2] at h1; linarith

/-- C3 (counterexample): a non-fallback input (single visit, GA 30)
whose weight progression weeks are NOT strictly increasing — the
current week 30 appears twice, once from the `isActual` push and once
from the `i = 0` loop iteration. -/
theorem C3_counterexample :
    validateVisits [gaOnlyRaw 30] = [gaOnlyVisit 30] ∧
    0 < weeksToProjectOf [gaOnlyVisit 30] ∧
    ((progressionOf (gaOnlyVisit 30) (gaOnlyVisit 30) [gaOnlyVisit 30] 30
        (weeksToProjectOf [gaOnlyVisit 30]) rngHalf sinZero).weight.map Point.week =
      [30, 30, 31, 32, 33, 34, 35, 36, 37, 38, 39, 40]) ∧
    ¬ List.Chain' (· < ·)
      ((progressionOf (gaOnlyVisit 30) (gaOnlyVisit 30) [gaOnlyVisit 30] 30
        (weeksToProjectOf [gaOnlyVisit 30]) rngHalf sinZero).weight.map Point.week) := by
  have hw : (progressionOf (gaOnlyVisit 30) (gaOnlyVisit 30) [gaOnlyVisit 30] 30
      (weeksToProjectOf [gaOnlyVisit 30]) rngHalf sinZero).weight.map Point.week =
      [30, 30, 31, 32, 33, 34, 35, 36, 37, 38, 39, 40] := by decide
  refine ⟨by decide, by decide, hw, ?_⟩
  rw [hw]
  intro hch
  exact absurd (List.chain'_cons.mp hch).1 (by norm_num)

/-- C3 (amended): for an integer current gestational age `n ≤ 39`, every
signal sequence has weeks `n, n, n+1, …, 40`: nondecreasing, starting
at the current week (which appears twice — the actual-flagged point and
the week-0 loop point), never below `n` and never above 40; the claimed
STRICT increase fails only at the duplicated first week. -/
theorem C3_amended (first latest : Visit) (validated : List Visit) (wtpIn : ℚ)
    (rand : ℕ → ℚ) (sinq : ℚ → ℚ) (n : ℕ) (hn : n ≤ 39) :
    ∀ L ∈ [(progressionOf first latest validated (n : ℚ) wtpIn rand sinq).weight,
           (progressionOf first latest validated (n : ℚ) wtpIn rand sinq).fundal,
           (progressionOf first latest validated (n : ℚ) wtpIn rand sinq).hb,
           (progressionOf first latest validated (n : ℚ) wtpIn rand sinq).systolic,
           (progressionOf first latest validated (n : ℚ) wtpIn rand sinq).diastolic,
           (progressionOf first latest validated (n : ℚ) wtpIn rand sinq).fetal_hr],
      L.map Point.week = (n : ℚ) :: (List.range (41 - n)).map (fun i : ℕ => (n : ℚ) + i) ∧
      List.Chain' (· ≤ ·) (L.map Point.week) ∧
      (L.map Point.week).head? = some (n : ℚ) ∧
      ∀ w ∈ L.map Point.week, (n : ℚ) ≤ w ∧ w ≤ 40 := by
  intro L hL
  have hcount := progressionLoopCount_eq n hn
  have hshape : L.map Point.week =
      (n : ℚ) :: (List.range (41 - n)).map (fun i : ℕ => (n : ℚ) + i) := by
    simp only [List.mem_cons, List.not_mem_nil, or_false] at hL
    rcases hL with rfl | rfl | rfl | rfl | rfl | rfl <;>
      (simp only [progressionOf]; rw [hcount]) <;>
      refine map_week_cons_range _ _ _ _ (fun i => ?_) <;>
      by_cases hi : i = 0 <;> simp [hi]
  exact ⟨hshape, (weekList_facts n hn L hshape).1, (weekList_facts n hn L hshape).2.1,
    (weekList_facts n hn L hshape).2.2⟩

/-- Witness for C3 (amended) at a single visit with GA 35. -/
theorem C3_amended_witness :
    ((progressionOf (gaOnlyVisit 35) (gaOnlyVisit 35) [gaOnlyVisit 35] ((35 : ℕ) : ℚ) 5
        rngHalf sinZero).weight.map Point.week =
      ((35 : ℕ) : ℚ) :: (List.range (41 - 35)).map (fun i : ℕ => ((35 : ℕ) : ℚ) + i)) ∧
    List.Chain' (· ≤ ·)
      ((progressionOf (gaOnlyVisit 35) (gaOnlyVisit 35) [gaOnlyVisit 35] ((35 : ℕ) : ℚ) 5
        rngHalf sinZero).weight.map Point.week) := by
  have h := C3_amended (gaOnlyVisit 35) (gaOnlyVisit 35) [gaOnlyVisit 35] 5 rngHalf sinZero
    35 (by decide) _ (List.mem_cons_self _ _)
  exact ⟨h.1, h.2.1⟩

theorem countP_pos_range (m : ℕ) :
    (List.range m).countP (fun i => decide (0 < i)) = m - 1 := by
  induction m with
  | zero => simp
  | succ k ih =>
    rw [List.range_succ, List.countP_append, ih]
    simp only [List.countP_cons, List.countP_nil, decide_eq_true_eq]
    split_ifs <;> omega

theorem filter_post_length (ga : ℚ) (count : ℕ) (x0 : Option ℚ) (f : ℕ → Point)
    (hf : ∀ i, (f i).week = ga + i) :
    (((⟨ga, x0, true⟩ : Point) :: (List.range count).map f).filter
      (fun pt => decide (ga < pt.week))).length = count - 1 := by
  have h0 : (decide (ga < Point.week ⟨ga, x0, true⟩)) = false := by simp
  rw [List.filter_cons, h0]
  simp only [Bool.false_eq_true, if_false]
  rw [← List.countP_eq_length_filter, List.countP_map]
  rw [List.countP_congr (q := fun i => decide (0 < i)) ?_]
  · exact countP_pos_range count
  · intro i _
    have hiff : (ga < ga + (i : ℚ)) ↔ (0 < i) := by
      rw [lt_add_iff_pos_right]
      exact Nat.cast_pos
    simp [Function.comp, hf i, hiff]

/-- C4 (counterexample): for a single visit at GA 20 the metadata value
`weeksToProject = min(40 - 20, 12) = 12`, yet the synthesizer emits 20
post-current-week points per signal (it projects through week 40,
ignoring its `weeksToProject` argument). -/
theorem C4_counterexample :
    validateVisits [gaOnlyRaw 20] = [gaOnlyVisit 20] ∧
    weeksToProjectOf [gaOnlyVisit 20] = 12 ∧
    ((progressionOf (gaOnlyVisit 20) (gaOnlyVisit 20) [gaOnlyVisit 20] 20
        (weeksToProjectOf [gaOnlyVisit 20]) rngHalf sinZero).weight.filter
      (fun pt => decide ((20 : ℚ) < pt.week))).length = 20 ∧
    (20 : ℕ) ≠ 12 :=
  ⟨by decide, by decide, by decide, by decide⟩

/-- C4 (amended): for an integer current GA `n ≤ 39` the synthesizer
emits exactly `40 − n` post-current-week points per signal; this equals
the reported `weeksProjected = min(40 − n, 12)` only when `n ≥ 28`, and
strictly exceeds it when `n < 28`. -/
theorem C4_amended (first latest : Visit) (validated : List Visit) (wtpIn : ℚ)
    (rand : ℕ → ℚ) (sinq : ℚ → ℚ) (n : ℕ)
    (hga : currentGAof validated = (n : ℚ)) (hn : n ≤ 39) :
    (∀ L ∈ [(progressionOf first latest validated (n : ℚ) wtpIn rand sinq).weight,
            (progressionOf first latest validated (n : ℚ) wtpIn rand sinq).fundal,
            (progressionOf first latest validated (n : ℚ) wtpIn rand sinq).hb,
            (progressionOf first latest validated (n : ℚ) wtpIn rand sinq).systolic,
            (progressionOf first latest validated (n : ℚ) wtpIn rand sinq).diastolic,
            (progressionOf first latest validated (n : ℚ) wtpIn rand sinq).fetal_hr],
      (L.filter (fun pt => decide ((n : ℚ) < pt.week))).length = 40 - n) ∧
    (28 ≤ n → weeksToProjectOf validated = ((40 - n : ℕ) : ℚ)) ∧
    (n < 28 → weeksToProjectOf validated < ((40 - n : ℕ) : ℚ)) := by
  have hcast : ((40 - n : ℕ) : ℚ) = 40 - n := by
    push_cast [Nat.cast_sub (by omega : n ≤ 40)]; ring
  refine ⟨?_, ?_, ?_⟩
  · intro L hL
    have hcount := progressionLoopCount_eq n hn
    simp only [List.mem_cons, List.not_mem_nil, or_false] at hL
    rcases hL with rfl | rfl | rfl | rfl | rfl | rfl <;>
      (simp only [progressionOf]; rw [hcount]) <;>
      refine ((filter_post_length _ _ _ _ (fun i => ?_)).trans (by omega)) <;>
      by_cases hi : i = 0 <;> simp [hi]
  · intro h28
    rw [weeksToProjectOf, hga, hcast, min_eq_left]
    have : (28 : ℚ) ≤ n := by exact_mod_cast h28
    linarith
  · intro h28
    rw [weeksToProjectOf, hga, hcast]
    have h27 : (n : ℚ) ≤ 27 := by exact_mod_cast Nat.lt_succ_iff.mp h28
    rw [min_eq_right (by linarith)]
    linarith

/-- Witness for C4 (amended) at a single visit with GA 35: five
post-current-week points. -/
theorem C4_amended_witness :
    ((progressionOf (gaOnlyVisit 35) (gaOnlyVisit 35) [gaOnlyVisit 35] ((35 : ℕ) : ℚ) 5
        rngHalf sinZero).weight.filter
      (fun pt => decide (((35 : ℕ) : ℚ) < pt.week))).length = 40 - 35 :=
  (C4_amended (gaOnlyVisit 35) (gaOnlyVisit 35) [gaOnlyVisit 35] 5 rngHalf sinZero 35
    (by decide) (by decide)).1 _ (List.mem_cons_self _ _)

theorem le_getLast_of_sortedByGA :
    ∀ (l : List Visit) (h : l ≠ []), sortedByGA l = true →
      ∀ u ∈ l, u.GESTATIONAL_AGE_WEEKS ≤ (l.getLast h).GESTATIONAL_AGE_WEEKS
  | [], h, _, _, _ => absurd rfl h
  | [a], _, _, u, hu => by
    simp only [List.mem_singleton] at hu
    subst hu
    simp [List.getLast]
  | a :: b :: t, h, hs, u, hu => by
    simp only [sortedByGA, Bool.and_eq_true, decide_eq_true_eq] at hs
    have hlast : ((a :: b :: t).getLast h) = ((b :: t).getLast (List.cons_ne_nil b t)) :=
      List.getLast_cons (List.cons_ne_nil b t)
    rcases List.mem_cons.mp hu with rfl | hu'
    · rw [hlast]
      exact le_trans hs.1
        (le_getLast_of_sortedByGA (b :: t) (List.cons_ne_nil b t) hs.2 b
          (List.mem_cons_self b t))
    · rw [hlast]
      exact le_getLast_of_sortedByGA (b :: t) (List.cons_ne_nil b t) hs.2 u hu'

/-- C5 (counterexample): two orderings of the same two visits (GA 30
with Hb 9, GA 20 with Hb 12) have the same maximum-gestational-age
visit but yield different risk scores, so the scorer does NOT always
read the maximum-gestational-age visit: it reads the last visit in
input order. -/
theorem C5_counterexample :
    calculateRiskScores [gaHbRaw 30 9, gaHbRaw 20 12] {} ≠
      calculateRiskScores [gaHbRaw 20 12, gaHbRaw 30 9] {} ∧
    currentGAof (validateVisits [gaHbRaw 30 9, gaHbRaw 20 12]) =
      currentGAof (validateVisits [gaHbRaw 20 12, gaHbRaw 30 9]) ∧
    (calculateRiskScores [gaHbRaw 30 9, gaHbRaw 20 12] {}).map RiskScores.anemia =
      some 0.1 ∧
    (calculateRiskScores [gaHbRaw 20 12, gaHbRaw 30 9] {}).map RiskScores.anemia =
      some 0.8 :=
  ⟨by decide, by decide, by decide, by decide⟩

/-- C5 (amended): the normalizer applies no sort (it is an
order-preserving filter-projection, as witnessed by its homomorphism
over concatenation), and the risk scorer reads the LAST normalized
visit in input order; when the input arrives ascending in gestational
age this visit is a maximum-gestational-age visit. -/
theorem C5_amended :
    (∀ xs ys : List RawVisit,
      validateVisits (xs ++ ys) = validateVisits xs ++ validateVisits ys) ∧
    (∀ (vs : List RawVisit) (p : Patient) (h : validateVisits vs ≠ []),
      sortedByGA (validateVisits vs) = true →
        ∃ v, v ∈ validateVisits vs ∧
          (∀ u ∈ validateVisits vs,
            u.GESTATIONAL_AGE_WEEKS ≤ v.GESTATIONAL_AGE_WEEKS) ∧
          calculateRiskScores vs p = some (riskScoresOf v p)) := by
  constructor
  · intro xs ys
    simp [validateVisits, List.filterMap_append]
  · intro vs p h hs
    refine ⟨(validateVisits vs).getLast h, List.getLast_mem h,
      le_getLast_of_sortedByGA _ h hs, ?_⟩
    rw [calculateRiskScores, List.getLast?_eq_getLast _ h]
    rfl

/-- Witness for C5 (amended) at an ascending two-visit history. -/
theorem C5_amended_witness :
    ∃ v, v ∈ validateVisits [gaHbRaw 20 12, gaHbRaw 30 9] ∧
      (∀ u ∈ validateVisits [gaHbRaw 20 12, gaHbRaw 30 9],
        u.GESTATIONAL_AGE_WEEKS ≤ v.GESTATIONAL_AGE_WEEKS) ∧
      calculateRiskScores [gaHbRaw 20 12, gaHbRaw 30 9] examplePatient =
        some (riskScoresOf v examplePatient) :=
  C5_amended.2 [gaHbRaw 20 12, gaHbRaw 30 9] examplePatient (by decide) (by decide)

/-- C6 (code bug, evaluated at the failing input): for the example
visit (BP "148/95"), the week-28 first point of each sequence is
flagged `isActual` and carries the visit values for weight, fundal
height, hemoglobin and fetal heart rate — but the first systolic and
diastolic points carry JS `undefined` (`none`), because lines 199–209
push `base.systolic`/`base.diastolic`, properties that do not exist on
`base`; the parsed 148/95 only appears on the unflagged second point
pushed by the `i = 0` loop iteration. -/
theorem C6_first_bp_point_undefined :
    validateVisits [exampleRawVisit] = [exampleVisit] ∧
    parseBloodPressure exampleVisit.BLOOD_PRESSURE = ⟨148, 95⟩ ∧
    (progressionOf exampleVisit exampleVisit [exampleVisit] 28 12 rngHalf
        sinZero).systolic.head? = some { week := 28, value := none, isActual := true } ∧
    (progressionOf exampleVisit exampleVisit [exampleVisit] 28 12 rngHalf
        sinZero).diastolic.head? = some { week := 28, value := none, isActual := true } ∧
    (progressionOf exampleVisit exampleVisit [exampleVisit] 28 12 rngHalf
        sinZero).weight.head? = some { week := 28, value := some 68, isActual := true } ∧
    (progressionOf exampleVisit exampleVisit [exampleVisit] 28 12 rngHalf
        sinZero).fundal.head? = some { week := 28, value := some 33, isActual := true } ∧
    (progressionOf exampleVisit exampleVisit [exampleVisit] 28 12 rngHalf
        sinZero).hb.head? = some { week := 28, value := some 9.2, isActual := true } ∧
    (progressionOf exampleVisit exampleVisit [exampleVisit] 28 12 rngHalf
        sinZero).fetal_hr.head? = some { week := 28, value := some 145, isActual := true } ∧
    (progressionOf exampleVisit exampleVisit [exampleVisit] 28 12 rngHalf
        sinZero).systolic[1]? = some { week := 28, value := some 148, isActual := false } ∧
    (progressionOf exampleVisit exampleVisit [exampleVisit] 28 12 rngHalf
        sinZero).diastolic[1]? = some { week := 28, value := some 95, isActual := false } :=
  ⟨by decide, by decide, by decide, by decide, by decide, by decide, by decide, by decide,
   by decide, by decide⟩

/-- C7 (counterexample): at the worked example input the delivery-type
distribution is Matured 0.62, Premature 0.27, MortalityRisk 0.11 — the
Premature probability is NOT higher than the Matured probability. -/
theorem C7_counterexample :
    (calculateRiskScores [exampleRawVisit] examplePatient).map
        calculateDeliveryTypeProbabilities =
      some { Matured := 0.62, Premature := 0.27, MortalityRisk := 0.11 } ∧
    ¬ ((0.27 : ℚ) > 0.62) :=
  ⟨by decide, by decide⟩

/-- C7 (amended): the worked example yields the claimed sub-scores
(anemia 0.8, hypertension 0.9, growth restriction 0.7, preterm 0.3,
maternal age 0.4, BMI 0.5), C-section probability 0.70 exactly at its
cap, severity bucket "high" — but Matured (0.62) remains noticeably
higher than Premature (0.27); Premature is merely elevated above its
0.15 baseline. -/
theorem C7_amended :
    calculateRiskScores [exampleRawVisit] examplePatient =
      some { anemia := 0.8, hypertension := 0.9, growthRestriction := 0.7,
             pretermRisk := 0.3, maternalAgeRisk := 0.4, bmiRisk := 0.5 } ∧
    (calculateRiskScores [exampleRawVisit] examplePatient).map
        calculateDeliveryTypeProbabilities =
      some { Matured := 0.62, Premature := 0.27, MortalityRisk := 0.11 } ∧
    ((0.62 : ℚ) > 0.27) ∧
    (calculateRiskScores [exampleRawVisit] examplePatient).map
        (fun s => calculateDeliveryModeProbabilities s examplePatient) =
      some { Normal := 0.3, CSection := 0.7 } ∧
    (calculateRiskScores [exampleRawVisit] examplePatient).map summaryRiskLevel =
      some "high" :=
  ⟨by decide, by decide, by decide, by decide, by decide⟩

/-- C8: every risk sub-score produced by the risk scorer lies in
`[0, 1]`, for every normalized visit and patient profile. -/
theorem C8_scores_unit_interval (v : Visit) (p : Patient) :
    (riskScoresOf v p).anemia ∈ Set.Icc (0 : ℚ) 1 ∧
    (riskScoresOf v p).hypertension ∈ Set.Icc (0 : ℚ) 1 ∧
    (riskScoresOf v p).growthRestriction ∈ Set.Icc (0 : ℚ) 1 ∧
    (riskScoresOf v p).pretermRisk ∈ Set.Icc (0 : ℚ) 1 ∧
    (riskScoresOf v p).maternalAgeRisk ∈ Set.Icc (0 : ℚ) 1 ∧
    (riskScoresOf v p).bmiRisk ∈ Set.Icc (0 : ℚ) 1 := by
  refine ⟨?_, ?_, ?_, ?_, ?_, ?_⟩ <;> rw [Set.mem_Icc]
  · exact anemiaScore_mem _
  · exact hypertensionScore_mem _
  · exact growthScore_mem _ _
  · exact pretermScore_mem _ _
  · exact maternalAgeScore_mem _
  · exact bmiScore_mem _

theorem round_three_sum_close (a b c : ℚ) (h : a + b + c = 1) :
    |roundProbability a + roundProbability b + roundProbability c - 1| ≤ 2 / 100 := by
  have e1 := roundProbability_close a
  have e2 := roundProbability_close b
  have e3 := roundProbability_close c
  rw [abs_le] at e1 e2 e3 ⊢
  constructor <;> linarith

theorem round_two_sum_close (a b : ℚ) (h : a + b = 1) :
    |roundProbability a + roundProbability b - 1| ≤ 2 / 100 := by
  have e1 := roundProbability_close a
  have e2 := roundProbability_close b
  rw [abs_le] at e1 e2 ⊢
  constructor <;> linarith

/-- C9: for every normalized visit and patient, the three independently
rounded delivery-type probabilities sum to 1 within ±0.02, and the two
independently rounded delivery-mode probabilities sum to 1 within
±0.02. -/
theorem C9_rounded_sums_close (v : Visit) (p : Patient) :
    |(calculateDeliveryTypeProbabilities (riskScoresOf v p)).Matured +
        (calculateDeliveryTypeProbabilities (riskScoresOf v p)).Premature +
        (calculateDeliveryTypeProbabilities (riskScoresOf v p)).MortalityRisk - 1| ≤ 2 / 100 ∧
    |(calculateDeliveryModeProbabilities (riskScoresOf v p) p).Normal +
        (calculateDeliveryModeProbabilities (riskScoresOf v p) p).CSection - 1| ≤ 2 / 100 := by
  constructor
  · have ha : 0 ≤ (riskScoresOf v p).anemia := (anemiaScore_mem _).1
    have hh : 0 ≤ (riskScoresOf v p).hypertension := (hypertensionScore_mem _).1
    have hg : 0 ≤ (riskScoresOf v p).growthRestriction := (growthScore_mem _ _).1
    have hp : 0 ≤ (riskScoresOf v p).pretermRisk := (pretermScore_mem _ _).1
    have hm : 0 ≤ (riskScoresOf v p).maternalAgeRisk := (maternalAgeScore_mem _).1
    have hb : 0 ≤ (riskScoresOf v p).bmiRisk := (bmiScore_mem _).1
    simp only [calculateDeliveryTypeProbabilities]
    apply round_three_sum_close
    set t := ((riskScoresOf v p).anemia + (riskScoresOf v p).hypertension +
      (riskScoresOf v p).growthRestriction + (riskScoresOf v p).pretermRisk +
      (riskScoresOf v p).maternalAgeRisk + (riskScoresOf v p).bmiRisk) / 6 with hT
    have ht : 0 ≤ t := by rw [hT]; positivity
    have hM : (0.4 : ℚ) ≤ max 0.4 (0.80 - t * 0.3) := le_max_left _ _
    have hP : (0.15 : ℚ) ≤ min 0.4 (0.15 + t * 0.2) := le_min (by norm_num) (by linarith)
    have hR : (0.05 : ℚ) ≤ min 0.2 (0.05 + t * 0.1) := le_min (by norm_num) (by linarith)
    have hsum : max 0.4 (0.80 - t * 0.3) + min 0.4 (0.15 + t * 0.2) +
        min 0.2 (0.05 + t * 0.1) ≠ 0 := by
      apply ne_of_gt; linarith
    field_simp
  · simp only [calculateDeliveryModeProbabilities]
    apply round_two_sum_close
    ring

/-- C10 (counterexample): the string "0/0" is neither absent nor empty,
yet it also yields the full default {115, 70}, because both of its
components parse to the falsy 0; the full default is therefore not
exclusive to absent/empty input. -/
theorem C10_counterexample :
    parseBloodPressure (some "0/0") = { systolic := 115, diastolic := 70 } ∧
    ("0/0" : String) ≠ "" ∧ (some "0/0" : Option String) ≠ none :=
  ⟨by decide, by decide, by decide⟩

/-- C10 (amended): blood-pressure parsing defaults each component
independently — a component parsing to NaN or 0 (or missing) is
replaced by its default (systolic 115, diastolic 70) while a parsed
nonzero component is kept; "140" yields 140/70, "0/80" yields 115/80,
and an absent or empty string short-circuits to the full default
(which other strings, e.g. "0/0", can also produce). -/
theorem C10_amended (s : String) (hs : s ≠ "") :
    (∀ v : ℚ, ((splitOnChar '/' s.toList).map jsNumberChars)[0]? = some (some v) → v ≠ 0 →
      (parseBloodPressure (some s)).systolic = v) ∧
    (((splitOnChar '/' s.toList).map jsNumberChars)[0]? = some none ∨
        ((splitOnChar '/' s.toList).map jsNumberChars)[0]? = some (some 0) →
      (parseBloodPressure (some s)).systolic = 115) ∧
    (∀ v : ℚ, ((splitOnChar '/' s.toList).map jsNumberChars)[1]? = some (some v) → v ≠ 0 →
      (parseBloodPressure (some s)).diastolic = v) ∧
    (((splitOnChar '/' s.toList).map jsNumberChars)[1]? = some none ∨
        ((splitOnChar '/' s.toList).map jsNumberChars)[1]? = some (some 0) ∨
        ((splitOnChar '/' s.toList).map jsNumberChars)[1]? = none →
      (parseBloodPressure (some s)).diastolic = 70) ∧
    parseBloodPressure none = { systolic := 115, diastolic := 70 } ∧
    parseBloodPressure (some "") = { systolic := 115, diastolic := 70 } ∧
    parseBloodPressure (some "140") = { systolic := 140, diastolic := 70 } ∧
    parseBloodPressure (some "0/80") = { systolic := 115, diastolic := 80 } := by
  have hsys : (parseBloodPressure (some s)).systolic =
      bpComponent 115 (((splitOnChar '/' s.toList).map jsNumberChars)[0]?) := by
    simp [parseBloodPressure, if_neg hs]
  have hdia : (parseBloodPressure (some s)).diastolic =
      bpComponent 70 (((splitOnChar '/' s.toList).map jsNumberChars)[1]?) := by
    simp [parseBloodPressure, if_neg hs]
  refine ⟨?_, ?_, ?_, ?_, by decide, by decide, by decide, by decide⟩
  · intro v hv hv0
    rw [hsys, hv]
    simp [bpComponent, hv0]
  · rintro (hv | hv) <;> rw [hsys, hv] <;> simp [bpComponent]
  · intro v hv hv0
    rw [hdia, hv]
    simp [bpComponent, hv0]
  · rintro (hv | hv | hv) <;> rw [hdia, hv] <;> simp [bpComponent]

/-- Witness for C10 (amended) at the string "147/92". -/
theorem C10_amended_witness :
    (parseBloodPressure (some "147/92")).systolic = 147 ∧
    (parseBloodPressure (some "147/92")).diastolic = 92 := by
  have h := C10_amended "147/92" (by decide)
  exact ⟨h.1 147 (by decide) (by decide), h.2.2.1 92 (by decide) (by decide)⟩
